import Mathlib

/-!
Verification of the `std140` crate: a shallow embedding of its value types
(scalars, vectors, matrices, array wrappers) and of the memory-layout rules
its declarations induce, together with theorems settling the specification
claims about them.

Memory layout is modelled by the documented `repr(C)` layout algorithm of the
host language applied to the `#[repr(C, align(N))]` attributes that appear in
the source: each field is placed at its predecessor's end rounded up to the
field's alignment, the struct alignment is the maximum of the attribute and
the field alignments, and the struct size is the end of the last field rounded
up to the struct alignment.
-/

/-- Byte layout of a type: its alignment and its size. -/
structure Layout where
  align : Nat
  size : Nat
deriving DecidableEq

/-- Round `n` up to the next multiple of `a` (identity when `a ∣ n`). -/
def roundUp (n a : Nat) : Nat := ((n + a - 1) / a) * a

/-- Default layout used for out-of-range list access. -/
def layoutUnit : Layout := ⟨1, 0⟩

/-- Offsets of consecutive fields, starting from running offset `off`: each
field starts at the running offset rounded up to the field's alignment. -/
def fieldOffsetsGo : Nat → List Layout → List Nat
  | _, [] => []
  | off, f :: rest =>
      roundUp off f.align :: fieldOffsetsGo (roundUp off f.align + f.size) rest

/-- Offsets of a struct's fields, in declaration order. -/
def fieldOffsets (fs : List Layout) : List Nat := fieldOffsetsGo 0 fs

/-- End offset of the last field (the running offset after placing all
fields starting from `off`). -/
def structEnd : Nat → List Layout → Nat
  | off, [] => off
  | off, f :: rest => structEnd (roundUp off f.align + f.size) rest

/-- Maximum alignment of a list of field layouts (`1` for the empty list). -/
def maxAlign (fs : List Layout) : Nat := fs.foldr (fun f m => max f.align m) 1

/-- Layout of a struct declared `#[repr(C, align(alignAttr))]` with the given
field layouts, following the host language's `repr(C)` algorithm: alignment is
the maximum of the attribute and the field alignments, size is the last
field's end rounded up to the struct alignment. -/
def reprC (alignAttr : Nat) (fs : List Layout) : Layout :=
  ⟨max alignAttr (maxAlign fs), roundUp (structEnd 0 fs) (max alignAttr (maxAlign fs))⟩

/-- Layout of the native 4-byte scalars (`f32`, `i32`, `u32`, and the
`#[repr(u32)]` boolean enum): alignment 4, size 4. -/
def scalar4 : Layout := ⟨4, 4⟩

/-- Layout of `float`, `#[repr(C, align(4))]` around one `f32`. -/
def floatLayout : Layout := reprC 4 [scalar4]

/-- Layout of `int`, `#[repr(C, align(4))]` around one `i32`. -/
def intLayout : Layout := reprC 4 [scalar4]

/-- Layout of `uint`, `#[repr(C, align(4))]` around one `u32`. -/
def uintLayout : Layout := reprC 4 [scalar4]

/-- Layout of `boolean`, a `#[repr(u32)]` two-variant enum. -/
def booleanLayout : Layout := scalar4

/-- Layout of `vec2`, `#[repr(C, align(8))]` over two `f32` fields. -/
def vec2Layout : Layout := reprC 8 [scalar4, scalar4]

/-- Layout of `vec3`, `#[repr(C, align(16))]` over three `f32` fields. -/
def vec3Layout : Layout := reprC 16 [scalar4, scalar4, scalar4]

/-- Layout of `vec4`, `#[repr(C, align(16))]` over four `f32` fields. -/
def vec4Layout : Layout := reprC 16 [scalar4, scalar4, scalar4, scalar4]

/-- Layout of `ivec3`, `#[repr(C, align(16))]` over three `i32` fields. -/
def ivec3Layout : Layout := reprC 16 [scalar4, scalar4, scalar4]

/-- Layout of `uvec3`, `#[repr(C, align(16))]` over three `u32` fields. -/
def uvec3Layout : Layout := reprC 16 [scalar4, scalar4, scalar4]

/-- Layout of `bvec3`, `#[repr(C, align(16))]` over three `boolean` fields. -/
def bvec3Layout : Layout := reprC 16 [scalar4, scalar4, scalar4]

/-- Layout of `AlignmentedElement<T>`, `#[repr(C, align(16))]` around one `T`
field; its size is the stride between consecutive elements of a `std140`
array. -/
def aeLayout (t : Layout) : Layout := reprC 16 [t]

/-- Value model of a native `f32`: only construction and equality occur in the
library, so values are modelled as rationals. -/
abbrev F32 := ℚ

/-- Value model of a native `i32` (no arithmetic occurs in the library). -/
abbrev I32 := Int

/-- Value model of a native `u32` (no arithmetic occurs in the library). -/
abbrev U32 := Nat

/-- The `boolean` enum of `lib.rs`: a 32-bit boolean with variants
`True = 1` and `False = 0`. -/
inductive boolean where
  | True
  | False
deriving DecidableEq

/-- The `From<bool> for boolean` conversion of `lib.rs`: `true` maps to
`True` and `false` maps to `False`. -/
def booleanFromBool : Bool → boolean
  | true => boolean.True
  | false => boolean.False

/-- Modelled from the spec: the conversion from a `boolean` back to a native
truth value (`True` to `true`, `False` to `false`), which the spec's
round-trip property requires but which is absent from `src/`. -/
def boolean.toBool : boolean → Bool
  | boolean.True => true
  | boolean.False => false

/-- Modelled from the spec: `boolean::from` on a `float` scalar, absent from
`src/` (only `From<bool>` is there): `True` iff the value is not the kind's
representation of zero, else `False`. -/
def booleanFromFloat (x : F32) : boolean :=
  if x = 0 then boolean.False else boolean.True

/-- Modelled from the spec: `boolean::from` on an `int` scalar, absent from
`src/`: `True` iff the value is not zero, else `False`. -/
def booleanFromInt (x : I32) : boolean :=
  if x = 0 then boolean.False else boolean.True

/-- Modelled from the spec: `boolean::from` on a `uint` scalar, absent from
`src/`: `True` iff the value is not zero, else `False`. -/
def booleanFromUint (x : U32) : boolean :=
  if x = 0 then boolean.False else boolean.True

/-- The `float` scalar wrapper of `lib.rs` around one `f32`. -/
structure float where
  val : F32
deriving DecidableEq

/-- The `int` scalar wrapper of `lib.rs` around one `i32`. -/
structure int where
  val : I32
deriving DecidableEq

/-- The `uint` scalar wrapper of `lib.rs` around one `u32`. -/
structure uint where
  val : U32
deriving DecidableEq

/-- The `vec2` type of `vec.rs`: two `f32` components. -/
structure vec2 where
  c0 : F32
  c1 : F32
deriving DecidableEq

/-- `vec2::zero()`. -/
def vec2.zero : vec2 := ⟨0, 0⟩

/-- The `Index` impl of `vec2`: positions 0 and 1 return the component, any
other position panics (modelled as `none`). -/
def vec2.index (v : vec2) (i : Nat) : Option F32 :=
  match i with
  | 0 => some v.c0
  | 1 => some v.c1
  | _ => none

/-- The `IndexMut` impl of `vec2`: writing through position 0 or 1 replaces
that component, any other position panics (modelled as `none`). -/
def vec2.indexSet (v : vec2) (i : Nat) (x : F32) : Option vec2 :=
  match i with
  | 0 => some ⟨x, v.c1⟩
  | 1 => some ⟨v.c0, x⟩
  | _ => none

/-- The `vec3` type of `vec.rs`: three `f32` components. -/
structure vec3 where
  c0 : F32
  c1 : F32
  c2 : F32
deriving DecidableEq

/-- `vec3::zero()`. -/
def vec3.zero : vec3 := ⟨0, 0, 0⟩

/-- The `Index` impl of `vec3`. -/
def vec3.index (v : vec3) (i : Nat) : Option F32 :=
  match i with
  | 0 => some v.c0
  | 1 => some v.c1
  | 2 => some v.c2
  | _ => none

/-- The `IndexMut` impl of `vec3`. -/
def vec3.indexSet (v : vec3) (i : Nat) (x : F32) : Option vec3 :=
  match i with
  | 0 => some ⟨x, v.c1, v.c2⟩
  | 1 => some ⟨v.c0, x, v.c2⟩
  | 2 => some ⟨v.c0, v.c1, x⟩
  | _ => none

/-- The `vec4` type of `vec.rs`: four `f32` components. -/
structure vec4 where
  c0 : F32
  c1 : F32
  c2 : F32
  c3 : F32
deriving DecidableEq

/-- `vec4::zero()`. -/
def vec4.zero : vec4 := ⟨0, 0, 0, 0⟩

/-- The `Index` impl of `vec4`. -/
def vec4.index (v : vec4) (i : Nat) : Option F32 :=
  match i with
  | 0 => some v.c0
  | 1 => some v.c1
  | 2 => some v.c2
  | 3 => some v.c3
  | _ => none

/-- The `IndexMut` impl of `vec4`. -/
def vec4.indexSet (v : vec4) (i : Nat) (x : F32) : Option vec4 :=
  match i with
  | 0 => some ⟨x, v.c1, v.c2, v.c3⟩
  | 1 => some ⟨v.c0, x, v.c2, v.c3⟩
  | 2 => some ⟨v.c0, v.c1, x, v.c3⟩
  | 3 => some ⟨v.c0, v.c1, v.c2, x⟩
  | _ => none

/-- The `ivec2` type of `vec.rs`: two `i32` components. -/
structure ivec2 where
  c0 : I32
  c1 : I32
deriving DecidableEq

/-- `ivec2::zero()`. -/
def ivec2.zero : ivec2 := ⟨0, 0⟩

/-- The `Index` impl of `ivec2`. -/
def ivec2.index (v : ivec2) (i : Nat) : Option I32 :=
  match i with
  | 0 => some v.c0
  | 1 => some v.c1
  | _ => none

/-- The `IndexMut` impl of `ivec2`. -/
def ivec2.indexSet (v : ivec2) (i : Nat) (x : I32) : Option ivec2 :=
  match i with
  | 0 => some ⟨x, v.c1⟩
  | 1 => some ⟨v.c0, x⟩
  | _ => none

/-- The `ivec3` type of `vec.rs`: three `i32` components. -/
structure ivec3 where
  c0 : I32
  c1 : I32
  c2 : I32
deriving DecidableEq

/-- `ivec3::zero()`. -/
def ivec3.zero : ivec3 := ⟨0, 0, 0⟩

/-- The `Index` impl of `ivec3`. -/
def ivec3.index (v : ivec3) (i : Nat) : Option I32 :=
  match i with
  | 0 => some v.c0
  | 1 => some v.c1
  | 2 => some v.c2
  | _ => none

/-- The `IndexMut` impl of `ivec3`. -/
def ivec3.indexSet (v : ivec3) (i : Nat) (x : I32) : Option ivec3 :=
  match i with
  | 0 => some ⟨x, v.c1, v.c2⟩
  | 1 => some ⟨v.c0, x, v.c2⟩
  | 2 => some ⟨v.c0, v.c1, x⟩
  | _ => none

/-- The `ivec4` type of `vec.rs`: four `i32` components. -/
structure ivec4 where
  c0 : I32
  c1 : I32
  c2 : I32
  c3 : I32
deriving DecidableEq

/-- `ivec4::zero()`. -/
def ivec4.zero : ivec4 := ⟨0, 0, 0, 0⟩

/-- The `Index` impl of `ivec4`. -/
def ivec4.index (v : ivec4) (i : Nat) : Option I32 :=
  match i with
  | 0 => some v.c0
  | 1 => some v.c1
  | 2 => some v.c2
  | 3 => some v.c3
  | _ => none

/-- The `IndexMut` impl of `ivec4`. -/
def ivec4.indexSet (v : ivec4) (i : Nat) (x : I32) : Option ivec4 :=
  match i with
  | 0 => some ⟨x, v.c1, v.c2, v.c3⟩
  | 1 => some ⟨v.c0, x, v.c2, v.c3⟩
  | 2 => some ⟨v.c0, v.c1, x, v.c3⟩
  | 3 => some ⟨v.c0, v.c1, v.c2, x⟩
  | _ => none

/-- The `uvec2` type of `vec.rs`: two `u32` components. -/
structure uvec2 where
  c0 : U32
  c1 : U32
deriving DecidableEq

/-- `uvec2::zero()`. -/
def uvec2.zero : uvec2 := ⟨0, 0⟩

/-- The `Index` impl of `uvec2`. -/
def uvec2.index (v : uvec2) (i : Nat) : Option U32 :=
  match i with
  | 0 => some v.c0
  | 1 => some v.c1
  | _ => none

/-- The `IndexMut` impl of `uvec2`. -/
def uvec2.indexSet (v : uvec2) (i : Nat) (x : U32) : Option uvec2 :=
  match i with
  | 0 => some ⟨x, v.c1⟩
  | 1 => some ⟨v.c0, x⟩
  | _ => none

/-- The `uvec3` type of `vec.rs`: three `u32` components. -/
structure uvec3 where
  c0 : U32
  c1 : U32
  c2 : U32
deriving DecidableEq

/-- `uvec3::zero()`. -/
def uvec3.zero : uvec3 := ⟨0, 0, 0⟩

/-- The `Index` impl of `uvec3`. -/
def uvec3.index (v : uvec3) (i : Nat) : Option U32 :=
  match i with
  | 0 => some v.c0
  | 1 => some v.c1
  | 2 => some v.c2
  | _ => none

/-- The `IndexMut` impl of `uvec3`. -/
def uvec3.indexSet (v : uvec3) (i : Nat) (x : U32) : Option uvec3 :=
  match i with
  | 0 => some ⟨x, v.c1, v.c2⟩
  | 1 => some ⟨v.c0, x, v.c2⟩
  | 2 => some ⟨v.c0, v.c1, x⟩
  | _ => none

/-- The `uvec4` type of `vec.rs`: four `u32` components. -/
structure uvec4 where
  c0 : U32
  c1 : U32
  c2 : U32
  c3 : U32
deriving DecidableEq

/-- `uvec4::zero()`. -/
def uvec4.zero : uvec4 := ⟨0, 0, 0, 0⟩

/-- The `Index` impl of `uvec4`. -/
def uvec4.index (v : uvec4) (i : Nat) : Option U32 :=
  match i with
  | 0 => some v.c0
  | 1 => some v.c1
  | 2 => some v.c2
  | 3 => some v.c3
  | _ => none

/-- The `IndexMut` impl of `uvec4`. -/
def uvec4.indexSet (v : uvec4) (i : Nat) (x : U32) : Option uvec4 :=
  match i with
  | 0 => some ⟨x, v.c1, v.c2, v.c3⟩
  | 1 => some ⟨v.c0, x, v.c2, v.c3⟩
  | 2 => some ⟨v.c0, v.c1, x, v.c3⟩
  | 3 => some ⟨v.c0, v.c1, v.c2, x⟩
  | _ => none

/-- The `bvec2` type of `vec.rs`: two `boolean` components. -/
structure bvec2 where
  c0 : boolean
  c1 : boolean
deriving DecidableEq

/-- `bvec2::zero()`. -/
def bvec2.zero : bvec2 := ⟨boolean.False, boolean.False⟩

/-- The `Index` impl of `bvec2`. -/
def bvec2.index (v : bvec2) (i : Nat) : Option boolean :=
  match i with
  | 0 => some v.c0
  | 1 => some v.c1
  | _ => none

/-- The `IndexMut` impl of `bvec2`. -/
def bvec2.indexSet (v : bvec2) (i : Nat) (x : boolean) : Option bvec2 :=
  match i with
  | 0 => some ⟨x, v.c1⟩
  | 1 => some ⟨v.c0, x⟩
  | _ => none

/-- The `bvec3` type of `vec.rs`: three `boolean` components. -/
structure bvec3 where
  c0 : boolean
  c1 : boolean
  c2 : boolean
deriving DecidableEq

/-- `bvec3::zero()`. -/
def bvec3.zero : bvec3 := ⟨boolean.False, boolean.False, boolean.False⟩

/-- The `Index` impl of `bvec3`. -/
def bvec3.index (v : bvec3) (i : Nat) : Option boolean :=
  match i with
  | 0 => some v.c0
  | 1 => some v.c1
  | 2 => some v.c2
  | _ => none

/-- The `IndexMut` impl of `bvec3`. -/
def bvec3.indexSet (v : bvec3) (i : Nat) (x : boolean) : Option bvec3 :=
  match i with
  | 0 => some ⟨x, v.c1, v.c2⟩
  | 1 => some ⟨v.c0, x, v.c2⟩
  | 2 => some ⟨v.c0, v.c1, x⟩
  | _ => none

/-- The `bvec4` type of `vec.rs`: four `boolean` components. -/
structure bvec4 where
  c0 : boolean
  c1 : boolean
  c2 : boolean
  c3 : boolean
deriving DecidableEq

/-- `bvec4::zero()`. -/
def bvec4.zero : bvec4 := ⟨boolean.False, boolean.False, boolean.False, boolean.False⟩

/-- The `Index` impl of `bvec4`. -/
def bvec4.index (v : bvec4) (i : Nat) : Option boolean :=
  match i with
  | 0 => some v.c0
  | 1 => some v.c1
  | 2 => some v.c2
  | 3 => some v.c3
  | _ => none

/-- The `IndexMut` impl of `bvec4`. -/
def bvec4.indexSet (v : bvec4) (i : Nat) (x : boolean) : Option bvec4 :=
  match i with
  | 0 => some ⟨x, v.c1, v.c2, v.c3⟩
  | 1 => some ⟨v.c0, x, v.c2, v.c3⟩
  | 2 => some ⟨v.c0, v.c1, x, v.c3⟩
  | 3 => some ⟨v.c0, v.c1, v.c2, x⟩
  | _ => none

/-- The `AlignmentedElement<T>` wrapper of `array.rs`: a
`#[repr(C, align(16))]` newtype around one value of `T`. -/
structure AlignmentedElement (T : Type) where
  val : T

/-- The derived `PartialEq` of `AlignmentedElement<T>`: it compares the single
inner field with `T`'s equality. -/
def AlignmentedElement.beq {T : Type} (eqT : T → T → Bool)
    (a b : AlignmentedElement T) : Bool :=
  eqT a.val b.val

/-- The `Debug` impl of `AlignmentedElement<T>` in `array.rs`: it delegates
formatting to the inner value's own `Debug`. -/
def AlignmentedElement.fmt {T : Type} (fmtT : T → String)
    (a : AlignmentedElement T) : String :=
  fmtT a.val

/-- The fixed-length `array<T, LEN>` of `array.rs`: `LEN` contiguous
`AlignmentedElement<T>` slots. -/
structure stdArray (T : Type) (LEN : Nat) where
  inner : List (AlignmentedElement T)
  hlen : inner.length = LEN

/-- `array::new`, wrapping the underlying fixed-size sequence. -/
def stdArray.new {T : Type} {LEN : Nat} (inner : List (AlignmentedElement T))
    (h : inner.length = LEN) : stdArray T LEN :=
  ⟨inner, h⟩

/-- Indexed access on `array<T, LEN>` through its `Deref` to a slice: an
in-range position returns that slot, an out-of-range position panics
(modelled as `none`). -/
def stdArray.index {T : Type} {LEN : Nat} (a : stdArray T LEN) (i : Nat) :
    Option (AlignmentedElement T) :=
  a.inner.get? i

/-- The `unbounded_array<T>` of `unbounded_array.rs`: a growable vector of
`AlignmentedElement<T>` slots. -/
structure unbounded_array (T : Type) where
  inner : List (AlignmentedElement T)

/-- The `FromIterator` impl of `unbounded_array<T>`: it collects the sequence
of wrapped elements in order. -/
def unbounded_array.fromIter {T : Type} (l : List (AlignmentedElement T)) :
    unbounded_array T :=
  ⟨l⟩

/-- Length query on `unbounded_array<T>` (`Vec::len` through `Deref`). -/
def unbounded_array.len {T : Type} (a : unbounded_array T) : Nat :=
  a.inner.length

/-- Indexed access on `unbounded_array<T>` (slice indexing through `Deref`);
out of range panics (modelled as `none`). -/
def unbounded_array.index {T : Type} (a : unbounded_array T) (i : Nat) :
    Option (AlignmentedElement T) :=
  a.inner.get? i

/-- Append on `unbounded_array<T>` (`Vec::push` through `DerefMut`). -/
def unbounded_array.push {T : Type} (a : unbounded_array T)
    (x : AlignmentedElement T) : unbounded_array T :=
  ⟨a.inner ++ [x]⟩

/-- The `mat2x2` type of `mat.rs`: an `array<vec2, 2>` of column vectors. -/
structure mat2x2 where
  columns : stdArray vec2 2

/-- The free `mat2x2(c0, c1)` builder: `array![c0, c1]` wraps each column in
an `AlignmentedElement`. -/
def mat2x2.ofCols (c0 c1 : vec2) : mat2x2 :=
  ⟨stdArray.new [⟨c0⟩, ⟨c1⟩] rfl⟩

/-- `mat2x2::zero()`. -/
def mat2x2.zero : mat2x2 := mat2x2.ofCols vec2.zero vec2.zero

/-- `mat2x2::identity()` as written in `mat.rs`. -/
def mat2x2.identity : mat2x2 := mat2x2.ofCols ⟨1, 0⟩ ⟨0, 1⟩

/-- The `mat3x3` type of `mat.rs`: an `array<vec3, 3>` of column vectors. -/
structure mat3x3 where
  columns : stdArray vec3 3

/-- The free `mat3x3(c0, c1, c2)` builder. -/
def mat3x3.ofCols (c0 c1 c2 : vec3) : mat3x3 :=
  ⟨stdArray.new [⟨c0⟩, ⟨c1⟩, ⟨c2⟩] rfl⟩

/-- `mat3x3::zero()`. -/
def mat3x3.zero : mat3x3 := mat3x3.ofCols vec3.zero vec3.zero vec3.zero

/-- `mat3x3::identity()` as written in `mat.rs`. -/
def mat3x3.identity : mat3x3 :=
  mat3x3.ofCols ⟨1, 0, 0⟩ ⟨0, 1, 0⟩ ⟨0, 0, 1⟩

/-- The `mat4x4` type of `mat.rs`: an `array<vec4, 4>` of column vectors. -/
structure mat4x4 where
  columns : stdArray vec4 4

/-- The free `mat4x4(c0, c1, c2, c3)` builder. -/
def mat4x4.ofCols (c0 c1 c2 c3 : vec4) : mat4x4 :=
  ⟨stdArray.new [⟨c0⟩, ⟨c1⟩, ⟨c2⟩, ⟨c3⟩] rfl⟩

/-- `mat4x4::zero()`. -/
def mat4x4.zero : mat4x4 :=
  mat4x4.ofCols vec4.zero vec4.zero vec4.zero vec4.zero

/-- `mat4x4::identity()` as written in `mat.rs`. -/
def mat4x4.identity : mat4x4 :=
  mat4x4.ofCols ⟨1, 0, 0, 0⟩ ⟨0, 1, 0, 0⟩ ⟨0, 0, 1, 0⟩ ⟨0, 0, 0, 1⟩

/-- Column `i` of a `mat2x2` (unwrapping the array slot). -/
def mat2x2.col (m : mat2x2) (i : Fin 2) : vec2 :=
  (m.columns.inner.get (Fin.cast m.columns.hlen.symm i)).val

/-- Column `i` of a `mat3x3`. -/
def mat3x3.col (m : mat3x3) (i : Fin 3) : vec3 :=
  (m.columns.inner.get (Fin.cast m.columns.hlen.symm i)).val

/-- Column `i` of a `mat4x4`. -/
def mat4x4.col (m : mat4x4) (i : Fin 4) : vec4 :=
  (m.columns.inner.get (Fin.cast m.columns.hlen.symm i)).val

/-- Component `j` of a `vec2`. -/
def vec2.comp (v : vec2) (j : Fin 2) : F32 :=
  match j with
  | ⟨0, _⟩ => v.c0
  | ⟨1, _⟩ => v.c1

/-- Component `j` of a `vec3`. -/
def vec3.comp (v : vec3) (j : Fin 3) : F32 :=
  match j with
  | ⟨0, _⟩ => v.c0
  | ⟨1, _⟩ => v.c1
  | ⟨2, _⟩ => v.c2

/-- Component `j` of a `vec4`. -/
def vec4.comp (v : vec4) (j : Fin 4) : F32 :=
  match j with
  | ⟨0, _⟩ => v.c0
  | ⟨1, _⟩ => v.c1
  | ⟨2, _⟩ => v.c2
  | ⟨3, _⟩ => v.c3

/-- Modelled from the spec: the per-field offsets the `repr_std140` macro
crate (`std140_macros`, absent from `src/`, only its test caller is there)
computes for a validated aggregate: each field starts at the previous field's
end rounded up to the field's alignment. -/
def std140Offsets (fs : List Layout) : List Nat := fieldOffsetsGo 0 fs

/-- Modelled from the spec: the alignment of a validated aggregate, the
maximum field alignment rounded up to 16. -/
def std140AggAlign (fs : List Layout) : Nat := roundUp (maxAlign fs) 16

/-- Modelled from the spec: the size of a validated aggregate, the last
field's end offset rounded up to the aggregate alignment. -/
def std140AggSize (fs : List Layout) : Nat :=
  roundUp (structEnd 0 fs) (std140AggAlign fs)

/-- The divisor of a round-up always divides the result. -/
lemma dvd_roundUp (n a : Nat) : a ∣ roundUp n a := by
  rw [roundUp]
  exact dvd_mul_left _ _

/-- Offset recurrence of the running-offset fold: each offset after the first
is the previous offset plus the previous size, rounded up to the next field's
alignment. -/
lemma fieldOffsetsGo_getD_succ :
    ∀ (fs : List Layout) (off i : Nat), i + 1 < fs.length →
      (fieldOffsetsGo off fs).getD (i + 1) 0
        = roundUp ((fieldOffsetsGo off fs).getD i 0 + (fs.getD i layoutUnit).size)
            ((fs.getD (i + 1) layoutUnit).align) := by
  intro fs
  induction fs with
  | nil => intro off i h; simp at h
  | cons f rest ih =>
    intro off i h
    cases i with
    | zero =>
      cases rest with
      | nil => simp at h
      | cons g rest2 => simp [fieldOffsetsGo]
    | succ n =>
      have h2 : n + 1 < rest.length := by
        simp only [List.length_cons] at h
        omega
      simpa [fieldOffsetsGo] using ih (roundUp off f.align + f.size) n h2

/-- C1 counterexample: the claim states `size(vec3) == 12`, but under the
declared `#[repr(C, align(16))]` representation the size of `vec3` is rounded
up to its 16-byte alignment, so it is 16, not 12. -/
theorem C1_counterexample : vec3Layout.size ≠ 12 := by decide

/-- C1 (amended): `vec3` (and likewise `ivec3`, `uvec3`, `bvec3`) has size 16
and alignment 16, so two consecutive `vec3` fields in an aggregate are not
packed back-to-back: the second begins at offset 16, not 12. -/
theorem C1_vec3_layout :
    vec3Layout.size = 16 ∧ vec3Layout.align = 16
    ∧ ivec3Layout.size = 16 ∧ ivec3Layout.align = 16
    ∧ uvec3Layout.size = 16 ∧ uvec3Layout.align = 16
    ∧ bvec3Layout.size = 16 ∧ bvec3Layout.align = 16
    ∧ fieldOffsets [vec3Layout, vec3Layout] = [0, 16] := by
  decide

/-- C2: for every validated aggregate's ordered field list, field `i + 1`
starts at field `i`'s end rounded up to its alignment, the aggregate
alignment is the maximum field alignment rounded up to 16, the aggregate size
is the last field's end rounded up to the aggregate alignment, and a `vec2`
field followed by a `vec3` field places the `vec3` at offset 16. -/
theorem C2_aggregate_layout :
    (∀ (fs : List Layout) (i : Nat), i + 1 < fs.length →
        (std140Offsets fs).getD (i + 1) 0
          = roundUp ((std140Offsets fs).getD i 0 + (fs.getD i layoutUnit).size)
              ((fs.getD (i + 1) layoutUnit).align))
    ∧ (∀ fs : List Layout, std140AggAlign fs = roundUp (maxAlign fs) 16)
    ∧ (∀ fs : List Layout, std140AggSize fs
        = roundUp (structEnd 0 fs) (std140AggAlign fs))
    ∧ std140Offsets [vec2Layout, vec3Layout] = [0, 16] :=
  ⟨fun fs i h => fieldOffsetsGo_getD_succ fs 0 i h,
   fun _ => rfl, fun _ => rfl, by decide⟩

/-- C2 witness: in the two-field aggregate `(vec2, vec3)` the second field's
offset is the first field's end (8) rounded up to the `vec3` alignment (16). -/
theorem C2_aggregate_layout_witness :
    (std140Offsets [vec2Layout, vec3Layout]).getD 1 0
      = roundUp ((std140Offsets [vec2Layout, vec3Layout]).getD 0 0
          + (([vec2Layout, vec3Layout] : List Layout).getD 0 layoutUnit).size)
          ((([vec2Layout, vec3Layout] : List Layout).getD 1 layoutUnit).align) :=
  C2_aggregate_layout.1 [vec2Layout, vec3Layout] 0 (by decide)

/-- C3: for every layout-validated element type (any layout whose alignment
is a power of two), the `AlignmentedElement` slot's stride is divisible by
16; in particular wrapping `uint` yields a 16-byte stride, not 4. -/
theorem C3_stride :
    (∀ L : Layout, (∃ k, L.align = 2 ^ k) → 16 ∣ (aeLayout L).size)
    ∧ (aeLayout uintLayout).size = 16 := by
  constructor
  · rintro L ⟨k, hk⟩
    have h1 : (1 : Nat) ≤ 2 ^ k := Nat.one_le_two_pow
    have hmax1 : max L.align 1 = L.align := by
      rw [hk]; exact Nat.max_eq_left h1
    have h16 : 16 ∣ max 16 L.align := by
      rcases le_total L.align 16 with h | h
      · rw [Nat.max_eq_left h]
      · rw [Nat.max_eq_right h]
        rw [hk] at h ⊢
        have hk4 : 4 ≤ k := by
          by_contra hlt
          push_neg at hlt
          have hle : (2 : Nat) ^ k ≤ 2 ^ 3 :=
            Nat.pow_le_pow_right (by norm_num) (by omega)
          omega
        calc (16 : Nat) = 2 ^ 4 := by norm_num
          _ ∣ 2 ^ k := pow_dvd_pow 2 hk4
    have hsize : (aeLayout L).size
        = roundUp (structEnd 0 [L]) (max 16 L.align) := by
      simp [aeLayout, reprC, maxAlign, hmax1]
    rw [hsize]
    exact dvd_trans h16 (dvd_roundUp _ _)
  · decide

/-- C3 witness: the `uint` layout's alignment is a power of two and the
resulting array-element stride is divisible by 16. -/
theorem C3_stride_witness : 16 ∣ (aeLayout uintLayout).size :=
  C3_stride.1 uintLayout ⟨2, by decide⟩

/-- C4: indexed access at an out-of-range position on any vector type
(position at or beyond the component count) or on a fixed array (position at
or beyond its length) aborts the operation rather than returning a value,
clamping, or returning a default. -/
theorem C4_out_of_range :
    (∀ (v : vec2) (i : Nat), 2 ≤ i → v.index i = none)
    ∧ (∀ (v : vec3) (i : Nat), 3 ≤ i → v.index i = none)
    ∧ (∀ (v : vec4) (i : Nat), 4 ≤ i → v.index i = none)
    ∧ (∀ (v : ivec2) (i : Nat), 2 ≤ i → v.index i = none)
    ∧ (∀ (v : ivec3) (i : Nat), 3 ≤ i → v.index i = none)
    ∧ (∀ (v : ivec4) (i : Nat), 4 ≤ i → v.index i = none)
    ∧ (∀ (v : uvec2) (i : Nat), 2 ≤ i → v.index i = none)
    ∧ (∀ (v : uvec3) (i : Nat), 3 ≤ i → v.index i = none)
    ∧ (∀ (v : uvec4) (i : Nat), 4 ≤ i → v.index i = none)
    ∧ (∀ (v : bvec2) (i : Nat), 2 ≤ i → v.index i = none)
    ∧ (∀ (v : bvec3) (i : Nat), 3 ≤ i → v.index i = none)
    ∧ (∀ (v : bvec4) (i : Nat), 4 ≤ i → v.index i = none)
    ∧ (∀ (T : Type) (LEN : Nat) (a : stdArray T LEN) (i : Nat),
        LEN ≤ i → a.index i = none) := by
  refine ⟨?_, ?_, ?_, ?_, ?_, ?_, ?_, ?_, ?_, ?_, ?_, ?_, ?_⟩
  · intro v i h
    obtain ⟨n, rfl⟩ : ∃ n, i = n + 2 := ⟨i - 2, by omega⟩
    rfl
  · intro v i h
    obtain ⟨n, rfl⟩ : ∃ n, i = n + 3 := ⟨i - 3, by omega⟩
    rfl
  · intro v i h
    obtain ⟨n, rfl⟩ : ∃ n, i = n + 4 := ⟨i - 4, by omega⟩
    rfl
  · intro v i h
    obtain ⟨n, rfl⟩ : ∃ n, i = n + 2 := ⟨i - 2, by omega⟩
    rfl
  · intro v i h
    obtain ⟨n, rfl⟩ : ∃ n, i = n + 3 := ⟨i - 3, by omega⟩
    rfl
  · intro v i h
    obtain ⟨n, rfl⟩ : ∃ n, i = n + 4 := ⟨i - 4, by omega⟩
    rfl
  · intro v i h
    obtain ⟨n, rfl⟩ : ∃ n, i = n + 2 := ⟨i - 2, by omega⟩
    rfl
  · intro v i h
    obtain ⟨n, rfl⟩ : ∃ n, i = n + 3 := ⟨i - 3, by omega⟩
    rfl
  · intro v i h
    obtain ⟨n, rfl⟩ : ∃ n, i = n + 4 := ⟨i - 4, by omega⟩
    rfl
  · intro v i h
    obtain ⟨n, rfl⟩ : ∃ n, i = n + 2 := ⟨i - 2, by omega⟩
    rfl
  · intro v i h
    obtain ⟨n, rfl⟩ : ∃ n, i = n + 3 := ⟨i - 3, by omega⟩
    rfl
  · intro v i h
    obtain ⟨n, rfl⟩ : ∃ n, i = n + 4 := ⟨i - 4, by omega⟩
    rfl
  · intro T LEN a i h
    have hl : a.inner.length ≤ i := by rw [a.hlen]; exact h
    exact List.get?_eq_none.mpr hl

/-- C4 witness: indexing a `vec2` at position 2, and a fixed array of length
3 at position 3, both abort. -/
theorem C4_out_of_range_witness :
    vec2.zero.index 2 = none
    ∧ (stdArray.new [⟨uint.mk 1⟩, ⟨uint.mk 2⟩, ⟨uint.mk 3⟩] rfl :
        stdArray uint 3).index 3 = none :=
  ⟨C4_out_of_range.1 vec2.zero 2 (by decide),
   C4_out_of_range.2.2.2.2.2.2.2.2.2.2.2.2 uint 3
     (stdArray.new [⟨uint.mk 1⟩, ⟨uint.mk 2⟩, ⟨uint.mk 3⟩] rfl) 3 (by decide)⟩

/-- C5: for every scalar kind (`float`, `int`, `uint`), converting to
`boolean` yields `False` if and only if the value is the kind's zero, and
`True` otherwise. -/
theorem C5_boolean_from_scalar :
    (∀ x : F32, (booleanFromFloat x = boolean.False ↔ x = 0)
        ∧ (booleanFromFloat x = boolean.True ↔ x ≠ 0))
    ∧ (∀ x : I32, (booleanFromInt x = boolean.False ↔ x = 0)
        ∧ (booleanFromInt x = boolean.True ↔ x ≠ 0))
    ∧ (∀ x : U32, (booleanFromUint x = boolean.False ↔ x = 0)
        ∧ (booleanFromUint x = boolean.True ↔ x ≠ 0)) := by
  refine ⟨fun x => ?_, fun x => ?_, fun x => ?_⟩ <;>
    by_cases h : x = 0 <;>
      simp [booleanFromFloat, booleanFromInt, booleanFromUint, h]

/-- C6: converting a native truth value maps `true` to `True` and `false` to
`False`, and round-tripping a native truth value through `boolean` and back
preserves it. -/
theorem C6_bool_roundtrip :
    booleanFromBool true = boolean.True
    ∧ booleanFromBool false = boolean.False
    ∧ ∀ b : Bool, (booleanFromBool b).toBool = b := by
  refine ⟨rfl, rfl, fun b => ?_⟩
  cases b <;> rfl

/-- C7: `identity()`, defined for the square matrices `mat2x2`, `mat3x3` and
`mat4x4`, sets column `i`'s component `i` to 1.0 and every other component to
0.0. -/
theorem C7_identity :
    (∀ i j : Fin 2,
      (mat2x2.identity.col i).comp j = if j.val = i.val then 1 else 0)
    ∧ (∀ i j : Fin 3,
      (mat3x3.identity.col i).comp j = if j.val = i.val then 1 else 0)
    ∧ (∀ i j : Fin 4,
      (mat4x4.identity.col i).comp j = if j.val = i.val then 1 else 0) := by
  decide

/-- C8: wrapping a value in the array-element wrapper does not change its
logical value: the wrapped value unwraps to the original, equality on wrapped
values agrees with equality on the unwrapped values, and debug formatting of
the wrapper equals debug formatting of the inner value. -/
theorem C8_wrapper_transparent :
    ∀ (T : Type) (eqT : T → T → Bool) (fmtT : T → String) (x y : T),
      (AlignmentedElement.mk x).val = x
      ∧ AlignmentedElement.beq eqT ⟨x⟩ ⟨y⟩ = eqT x y
      ∧ AlignmentedElement.fmt fmtT ⟨x⟩ = fmtT x :=
  fun _ _ _ _ _ => ⟨rfl, rfl, rfl⟩

/-- C9: the dynamically-sized array is constructible from any finite sequence
(including the empty one and a repeated value), and the construction yields a
value whose length is the sequence's length and whose element at every
position is the sequence's element there; append grows the length by one. -/
theorem C9_dynamic_array :
    ∀ (T : Type) (l : List (AlignmentedElement T)),
      (unbounded_array.fromIter l).len = l.length
      ∧ (∀ i : Nat, (unbounded_array.fromIter l).index i = l.get? i)
      ∧ (unbounded_array.fromIter ([] : List (AlignmentedElement T))).len = 0
      ∧ (∀ (x : AlignmentedElement T) (n : Nat),
          (unbounded_array.fromIter (List.replicate n x)).len = n)
      ∧ (∀ (a : unbounded_array T) (x : AlignmentedElement T),
          (a.push x).len = a.len + 1) := by
  intro T l
  refine ⟨rfl, fun i => rfl, rfl, fun x n => ?_, fun a x => ?_⟩
  · simp [unbounded_array.fromIter, unbounded_array.len]
  · simp [unbounded_array.push, unbounded_array.len]

/-- C10: on every vector type, writing a component through positional mutable
indexing at an in-range position changes only that component: reading any
other position afterwards gives the original value. -/
theorem C10_index_set_frame :
    (∀ (v : vec2) (x : F32) (i j : Nat), i < 2 → j ≠ i →
      (v.indexSet i x).bind (fun w => w.index j) = v.index j)
    ∧ (∀ (v : vec3) (x : F32) (i j : Nat), i < 3 → j ≠ i →
      (v.indexSet i x).bind (fun w => w.index j) = v.index j)
    ∧ (∀ (v : vec4) (x : F32) (i j : Nat), i < 4 → j ≠ i →
      (v.indexSet i x).bind (fun w => w.index j) = v.index j)
    ∧ (∀ (v : ivec2) (x : I32) (i j : Nat), i < 2 → j ≠ i →
      (v.indexSet i x).bind (fun w => w.index j) = v.index j)
    ∧ (∀ (v : ivec3) (x : I32) (i j : Nat), i < 3 → j ≠ i →
      (v.indexSet i x).bind (fun w => w.index j) = v.index j)
    ∧ (∀ (v : ivec4) (x : I32) (i j : Nat), i < 4 → j ≠ i →
      (v.indexSet i x).bind (fun w => w.index j) = v.index j)
    ∧ (∀ (v : uvec2) (x : U32) (i j : Nat), i < 2 → j ≠ i →
      (v.indexSet i x).bind (fun w => w.index j) = v.index j)
    ∧ (∀ (v : uvec3) (x : U32) (i j : Nat), i < 3 → j ≠ i →
      (v.indexSet i x).bind (fun w => w.index j) = v.index j)
    ∧ (∀ (v : uvec4) (x : U32) (i j : Nat), i < 4 → j ≠ i →
      (v.indexSet i x).bind (fun w => w.index j) = v.index j)
    ∧ (∀ (v : bvec2) (x : boolean) (i j : Nat), i < 2 → j ≠ i →
      (v.indexSet i x).bind (fun w => w.index j) = v.index j)
    ∧ (∀ (v : bvec3) (x : boolean) (i j : Nat), i < 3 → j ≠ i →
      (v.indexSet i x).bind (fun w => w.index j) = v.index j)
    ∧ (∀ (v : bvec4) (x : boolean) (i j : Nat), i < 4 → j ≠ i →
      (v.indexSet i x).bind (fun w => w.index j) = v.index j) := by
  refine ⟨?_, ?_, ?_, ?_, ?_, ?_, ?_, ?_, ?_, ?_, ?_, ?_⟩ <;>
    (intro v x i j hi hj
     interval_cases i <;>
       rcases j with _ | (_ | (_ | (_ | n))) <;>
         first
           | rfl
           | exact absurd rfl hj)

/-- C10 witness: writing position 0 of a concrete `vec2` leaves position 1
unchanged. -/
theorem C10_index_set_frame_witness :
    ((vec2.mk 1 2).indexSet 0 9).bind (fun w => w.index 1)
      = (vec2.mk 1 2).index 1 :=
  C10_index_set_frame.1 ⟨1, 2⟩ 9 0 1 (by decide) (by decide)
